import Mathlib

/-
Shallow embedding of `src/nix_tcp.hpp` (class `TcpSocket`), a blocking
wrapper around a one-to-one *nix TCP socket with a fixed-size framing
protocol.

Modelling conventions:
* `uint8_t` values are `Nat` with reductions `% 256` written exactly where
  the C++ performs an implicit narrowing conversion;
* `std::optional<int>` file descriptors are `Option Int` (`socket()`
  returning `-1` is the integer `-1`, which the source stores into the
  optional before comparing, see nix_tcp.hpp:106-109);
* OS collaborators (getaddrinfo, socket, setsockopt, ::bind, ::connect,
  listen, ::accept, ::send, ::recv) are passed in as explicit environment
  data describing the result of each call, so every control path of the
  source is represented;
* thrown `TcpError` values become explicit error results; the message
  strings of the source are represented by the enumeration `Msg` below,
  one constructor per distinct string literal;
* unchecked `std::vector::operator[]` accesses are total functions
  (`List.getD`/`List.set`, out of range reads give 0, out of range writes
  are dropped); the separate function `recvReadIndices` records which
  indices the receive loop accesses so that out-of-range accesses (which
  are undefined behaviour in the C++) can be reasoned about directly.
-/

/-- Message part of a thrown `TcpError`; one constructor per distinct
string literal in nix_tcp.hpp. -/
inductive Msg where
  /-- string "socket already bound" (nix_tcp.hpp:79) -/
  | socketAlreadyBound
  /-- string "socket unbound" (nix_tcp.hpp:145, 175, 234, 272) -/
  | socketUnbound
  /-- string "socket already connected" (nix_tcp.hpp:149, 179) -/
  | socketAlreadyConnected
  /-- string "socket disconnected" (nix_tcp.hpp:238, 276) -/
  | socketDisconnected
  /-- string returned by gai_strerror (nix_tcp.hpp:98, 194) -/
  | gaiError
  /-- string "couldn.t set socket options" (nix_tcp.hpp:116) -/
  | couldNotSetSocketOptions
  /-- string "couldn.t bind to any address" (nix_tcp.hpp:137) -/
  | couldNotBindToAnyAddress
  /-- string "couldn.t listen for connections" (nix_tcp.hpp:155) -/
  | couldNotListenForConnections
  /-- string "couldn.t connect to any address" (nix_tcp.hpp:223) -/
  | couldNotConnectToAnyAddress
  /-- string "couldn.t send data" (nix_tcp.hpp:264, and also the copy-pasted
  message of the receive I/O failure at nix_tcp.hpp:291) -/
  | couldNotSendData
  /-- string "invalid received packet length" (nix_tcp.hpp:294) -/
  | invalidReceivedPacketLength
deriving DecidableEq, Repr

/-- struct TcpError (nix_tcp.hpp:31-34): an `int` code and a message. -/
structure Err where
  code : Int
  msg : Msg
deriving DecidableEq, Repr

/-- State of a `TcpSocket` object (nix_tcp.hpp:38-44): the two optional
file descriptors and the configured packet length (`uint8_t`). -/
structure TcpSocket where
  sockfd : Option Int
  remote_sockfd : Option Int
  packet_len : Nat
deriving DecidableEq, Repr

/-- Constructor `TcpSocket(uint8_t packet_len)` (nix_tcp.hpp:53-58):
stores the packet length without any validation, both descriptors empty. -/
def TcpSocket.make (packet_len : Nat) : TcpSocket :=
  { sockfd := none, remote_sockfd := none, packet_len := packet_len }

/-- is_bound (nix_tcp.hpp:72): whether `sockfd` holds a value. -/
def TcpSocket.is_bound (s : TcpSocket) : Bool :=
  s.sockfd.isSome

/-- is_connected (nix_tcp.hpp:74): whether `remote_sockfd` holds a value. -/
def TcpSocket.is_connected (s : TcpSocket) : Bool :=
  s.remote_sockfd.isSome

/-- Result of resolving an address spec with getaddrinfo: either a nonzero
`gai_ret` (nix_tcp.hpp:96-100, 191-196) or the candidate list. -/
inductive Resolved (α : Type) where
  | fail (gaiRet : Int)
  | ok (candidates : List α)
deriving DecidableEq, Repr

/-- One candidate address in the bind loop (nix_tcp.hpp:104-127), described
by what each OS call on it returns: the value of `socket(...)` (a file
descriptor, or -1 on failure), whether `setsockopt` succeeds together with
the `errno` when it does not, and whether `::bind` succeeds. -/
structure Candidate where
  socketRet : Int
  setsockoptOk : Bool
  setsockoptErrno : Int
  bindOk : Bool
deriving DecidableEq, Repr

/-- Candidate loop of `TcpSocket::bind` (nix_tcp.hpp:102-139).  Mirrors the
source exactly: `sockfd` is assigned the raw return of `socket()` before it
is compared with -1; a `setsockopt` failure throws while `sockfd` is still
set; a `::bind` failure closes the descriptor and continues (the optional
keeps the stale value); exhausting the list resets `sockfd` to `nullopt`
and throws code 1. -/
def bindLoop (s : TcpSocket) : List Candidate → (Option Err) × TcpSocket
  | [] =>
    (some { code := 1, msg := .couldNotBindToAnyAddress },
     { s with sockfd := none })
  | c :: rest =>
    let s1 : TcpSocket := { s with sockfd := some c.socketRet }
    if c.socketRet = -1 then
      bindLoop s1 rest
    else if !c.setsockoptOk then
      (some { code := c.setsockoptErrno, msg := .couldNotSetSocketOptions }, s1)
    else if !c.bindOk then
      bindLoop s1 rest
    else
      (none, s1)

/-- TcpSocket::bind (nix_tcp.hpp:77-140).  Fails with code -1 on an already
bound socket; a nonzero getaddrinfo return throws it with its message;
otherwise runs the candidate loop.  Result `none` means normal return. -/
def TcpSocket.bind (s : TcpSocket) (res : Resolved Candidate) :
    (Option Err) × TcpSocket :=
  if s.is_bound then
    (some { code := -1, msg := .socketAlreadyBound }, s)
  else
    match res with
    | .fail gaiRet => (some { code := gaiRet, msg := .gaiError }, s)
    | .ok cands => bindLoop s cands

/-- Retry loop of `TcpSocket::accept` (nix_tcp.hpp:160-170): each entry of
`rets` is the return value of one `::accept` call, assigned to
`remote_sockfd` before the -1 comparison; the loop exits on the first value
that is not -1.  `none` models the case where every modelled attempt failed
and the loop is still running (it never exits with an error). -/
def acceptLoop (s : TcpSocket) : List Int → Option TcpSocket
  | [] => none
  | fd :: rest =>
    let s1 : TcpSocket := { s with remote_sockfd := some fd }
    if fd = -1 then acceptLoop s1 rest else some s1

/-- TcpSocket::accept (nix_tcp.hpp:143-171).  Guards: unbound throws code
-2, already connected throws code -1; a `listen` failure throws its errno;
then the retry loop runs.  The outer `Option` is `none` when the retry loop
does not terminate within the modelled attempts. -/
def TcpSocket.accept (s : TcpSocket) (listenOk : Bool) (listenErrno : Int)
    (rets : List Int) : Option ((Option Err) × TcpSocket) :=
  if !s.is_bound then
    some (some { code := -2, msg := .socketUnbound }, s)
  else if s.is_connected then
    some (some { code := -1, msg := .socketAlreadyConnected }, s)
  else if !listenOk then
    some (some { code := listenErrno, msg := .couldNotListenForConnections }, s)
  else
    match acceptLoop s rets with
    | none => none
    | some s1 => some (none, s1)

/-- One candidate address in the connect loop (nix_tcp.hpp:199-216): the
return value of `socket()` and whether `::connect` succeeds. -/
structure ConnCandidate where
  socketRet : Int
  connectOk : Bool
deriving DecidableEq, Repr

/-- Candidate loop of `TcpSocket::connect` (nix_tcp.hpp:198-225): mirrors
the source; exhaustion resets `remote_sockfd` to `nullopt` and throws
code 1. -/
def connectLoop (s : TcpSocket) : List ConnCandidate → (Option Err) × TcpSocket
  | [] =>
    (some { code := 1, msg := .couldNotConnectToAnyAddress },
     { s with remote_sockfd := none })
  | c :: rest =>
    let s1 : TcpSocket := { s with remote_sockfd := some c.socketRet }
    if c.socketRet = -1 then
      connectLoop s1 rest
    else if !c.connectOk then
      connectLoop s1 rest
    else
      (none, s1)

/-- TcpSocket::connect (nix_tcp.hpp:173-229): guards as in the source, then
resolution, then the candidate loop. -/
def TcpSocket.connect (s : TcpSocket) (res : Resolved ConnCandidate) :
    (Option Err) × TcpSocket :=
  if !s.is_bound then
    (some { code := -2, msg := .socketUnbound }, s)
  else if s.is_connected then
    (some { code := -1, msg := .socketAlreadyConnected }, s)
  else
    match res with
    | .fail gaiRet => (some { code := gaiRet, msg := .gaiError }, s)
    | .ok cands => connectLoop s cands

/-- Chunk size computed by the send loop (nix_tcp.hpp:251-252):
`uint8_t count = std::min((unsigned long)packet_len - 1, data_size - offset)`.
The cast happens before the subtraction, so for `packet_len = 0` the left
argument wraps around to `2 ^ 64 - 1` (LP64 `unsigned long`); the final
`% 256` is the implicit narrowing conversion to `uint8_t`. -/
def chunkCount (packet_len remaining : Nat) : Nat :=
  (min ((packet_len + (2 ^ 64 - 1)) % 2 ^ 64) remaining) % 256

/-- Frame construction of one send iteration (nix_tcp.hpp:254-259):
`packet[0] = count;` then `for (i = 1; i <= count; i++)
packet[i] = data[i - 1 + offset];` — a left fold of the writes over the
index list `[1, ..., count]` starting from the buffer with the length byte
set.  Out of range writes (possible only for `packet_len = 0`, where they
are undefined behaviour in the C++) are dropped by `List.set`. -/
def writeChunk (packet data : List Nat) (offset count : Nat) : List Nat :=
  (List.range' 1 count).foldl
    (fun p i => p.set i (data.getD (i - 1 + offset) 0))
    (packet.set 0 count)

/-- Result of the send path. -/
inductive SendOut where
  /-- normal return; carries the frames passed to `::send`, in order -/
  | ok (frames : List (List Nat))
  /-- a thrown TcpError -/
  | err (e : Err)
  /-- the loop did not finish within the given fuel -/
  | noFuel
deriving DecidableEq, Repr

/-- Chunking loop of `TcpSocket::send` (nix_tcp.hpp:244-267):
`for (; offset < data_size; offset += count)`.  The packet buffer is the
loop-carried `packet` argument: it is written over in place each iteration
and never cleared between iterations.  `wire idx` gives the outcome of the
`idx`-th `::send` call (`none` = success, `some e` = failure with errno
`e`, which throws).  `fuel` bounds the number of iterations so that the
function is total; `noFuel` reports that the bound was hit. -/
def sendLoop (packet_len : Nat) (data : List Nat) (wire : Nat → Option Int) :
    Nat → Nat → Nat → List Nat → SendOut
  | 0, offset, _, _ =>
    if offset < data.length then .noFuel else .ok []
  | fuel + 1, offset, idx, packet =>
    if offset < data.length then
      let count := chunkCount packet_len (data.length - offset)
      let packet1 := writeChunk packet data offset count
      match wire idx with
      | some e => .err { code := e, msg := .couldNotSendData }
      | none =>
        match sendLoop packet_len data wire fuel (offset + count) (idx + 1) packet1 with
        | .ok frames => .ok (packet1 :: frames)
        | r => r
    else .ok []

/-- TcpSocket::send (nix_tcp.hpp:232-268): the two state guards (bound is
checked first), then the zero-initialised packet buffer
`std::vector<uint8_t> packet(packet_len, 0)` and the chunking loop.  The
member state is returned unchanged on every path, as in the source, whose
body assigns to no member. -/
def TcpSocket.send (s : TcpSocket) (data : List Nat) (wire : Nat → Option Int)
    (fuel : Nat) : SendOut × TcpSocket :=
  if !s.is_bound then
    (.err { code := -2, msg := .socketUnbound }, s)
  else if !s.is_connected then
    (.err { code := -2, msg := .socketDisconnected }, s)
  else
    (sendLoop s.packet_len data wire fuel 0 0 (List.replicate s.packet_len 0), s)

/-- Frame sequence written by a successful send on a connected pair: the
chunking loop run on the zero-initialised buffer with every `::send`
succeeding. -/
def sendFrames (packet_len : Nat) (data : List Nat) (fuel : Nat) : SendOut :=
  sendLoop packet_len data (fun _ => none) fuel 0 0 (List.replicate packet_len 0)

/-- Result of the receive path. -/
inductive RecvOut where
  /-- normal return with the reassembled data -/
  | ok (data : List Nat)
  /-- a thrown TcpError -/
  | err (e : Err)
  /-- the loop consumed every delivered segment and called `::recv` again:
  the call would block; carries the data accumulated so far -/
  | blocked (acc : List Nat)
deriving DecidableEq, Repr

/-- Indices of the packet buffer read by one iteration of the receive loop
(nix_tcp.hpp:299-303): `count = packet[0];` reads index 0, then
`for (i = 1; i <= count; i++) data.push_back(packet[i]);` reads indices
1 to `count`.  No bound check relates `count` to the buffer size. -/
def recvReadIndices (packet : List Nat) : List Nat :=
  0 :: List.range' 1 (packet.getD 0 0)

/-- Receive loop of `TcpSocket::recv` (nix_tcp.hpp:286-310).  `segs` lists
the byte segments returned by successive successful `::recv` calls (the
received byte count is the segment length; an I/O failure path,
`received == -1`, is not modelled — segments are completed reads).  A
segment whose length differs from `packet_len` throws code 1 with message
"invalid received packet length" (nix_tcp.hpp:293-296).  Otherwise byte 0
is the chunk length, bytes 1 to `count` are appended (`List.getD` giving 0
for reads past the end of the segment, which in the C++ are unchecked out
of range accesses), and the loop ends when `count < packet_len - 1`.
With no segment left, the next `::recv` call would block. -/
def recvLoop (packet_len : Nat) : List Nat → List (List Nat) → RecvOut
  | acc, [] => .blocked acc
  | acc, packet :: rest =>
    if packet.length ≠ packet_len then
      .err { code := 1, msg := .invalidReceivedPacketLength }
    else
      let count := packet.getD 0 0
      let acc1 := acc ++ (List.range' 1 count).map (fun i => packet.getD i 0)
      if count < packet_len - 1 then .ok acc1
      else recvLoop packet_len acc1 rest

/-- TcpSocket::recv (nix_tcp.hpp:270-313): the two state guards (bound is
checked first, exactly as in send), then the receive loop with an empty
accumulator. -/
def TcpSocket.recv (s : TcpSocket) (segs : List (List Nat)) :
    RecvOut × TcpSocket :=
  if !s.is_bound then
    (.err { code := -2, msg := .socketUnbound }, s)
  else if !s.is_connected then
    (.err { code := -2, msg := .socketDisconnected }, s)
  else
    (recvLoop s.packet_len [] segs, s)

/-
Helper lemmas about the chunk arithmetic and the packet buffer writes.
-/

/-- For a packet length in `1..255` the wrapped subtraction is the plain
`packet_len - 1` and the narrowing to `uint8_t` is the identity. -/
theorem chunkCount_eq (f r : Nat) (hf : 1 ≤ f) (hf255 : f ≤ 255) :
    chunkCount f r = min (f - 1) r := by
  unfold chunkCount
  have h1 : (f + (2 ^ 64 - 1)) % 2 ^ 64 = f - 1 := by
    have h2 : f + (2 ^ 64 - 1) = (f - 1) + 1 * 2 ^ 64 := by omega
    rw [h2, Nat.add_mul_mod_self_right]
    exact Nat.mod_eq_of_lt (by omega)
  rw [h1]
  exact Nat.mod_eq_of_lt (Nat.lt_of_le_of_lt (Nat.min_le_left _ _) (by omega))

/-- With packet length 1 the computed chunk size is always 0. -/
theorem chunkCount_one (r : Nat) : chunkCount 1 r = 0 := by
  rw [chunkCount_eq 1 r (by omega) (by omega)]
  simp

/-- With a packet length in `2..255` and data remaining, the chunk size is
at least 1: the loop makes progress. -/
theorem chunkCount_pos (f r : Nat) (hf : 2 ≤ f) (hf255 : f ≤ 255) (hr : 1 ≤ r) :
    1 ≤ chunkCount f r := by
  rw [chunkCount_eq f r (by omega) hf255]
  exact Nat.le_min.mpr ⟨by omega, hr⟩

/-- A fold of index writes does not change an index it never writes. -/
theorem getD_foldl_set_of_not_mem (data : List Nat) (offset j : Nat) :
    ∀ (l : List Nat) (acc : List Nat), j ∉ l →
      (l.foldl (fun p i => p.set i (data.getD (i - 1 + offset) 0)) acc).getD j 0 =
        acc.getD j 0 := by
  intro l
  induction l with
  | nil => intro acc _; rfl
  | cons x xs ih =>
    intro acc hj
    rw [List.foldl_cons, ih _ (fun h => hj (List.mem_cons_of_mem _ h))]
    have hx : x ≠ j := fun h => hj (h ▸ List.mem_cons_self _ _)
    simp [List.getD_eq_getElem?_getD, List.getElem?_set_ne hx]

/-- Indices strictly beyond the chunk are untouched by the frame write. -/
theorem getD_writeChunk_of_gt (packet data : List Nat) (offset count j : Nat)
    (hj0 : j ≠ 0) (hjc : count < j) :
    (writeChunk packet data offset count).getD j 0 = packet.getD j 0 := by
  unfold writeChunk
  rw [getD_foldl_set_of_not_mem]
  · simp [List.getD_eq_getElem?_getD, List.getElem?_set_ne (Ne.symm hj0)]
  · intro hmem
    rw [List.mem_range'_1] at hmem
    omega

/-- Byte 0 of a written frame is the chunk length. -/
theorem getD_writeChunk_zero (packet data : List Nat) (offset count : Nat)
    (hp : 0 < packet.length) :
    (writeChunk packet data offset count).getD 0 0 = count := by
  unfold writeChunk
  rw [getD_foldl_set_of_not_mem]
  · simp [List.getD_eq_getElem?_getD, List.getElem?_set_self (by simpa using hp)]
  · intro hmem
    rw [List.mem_range'_1] at hmem
    omega

/-- A successful send whose frame list is nonempty sent a first frame built
from the zero-initialised buffer with the first chunk size. -/
theorem sendFrames_ok_cons (f : Nat) (data : List Nat) (fuel : Nat)
    (fr : List Nat) (frames : List (List Nat))
    (h : sendFrames f data fuel = .ok (fr :: frames)) :
    0 < data.length ∧
      fr = writeChunk (List.replicate f 0) data 0 (chunkCount f data.length) := by
  by_cases h0 : 0 < data.length
  · refine ⟨h0, ?_⟩
    cases fuel with
    | zero => simp [sendFrames, sendLoop, h0] at h
    | succ fuel =>
      rcases hrec : sendLoop f data (fun _ => none) fuel (chunkCount f data.length)
          1 (writeChunk (List.replicate f 0) data 0 (chunkCount f data.length)) with
        frames2 | e | _ <;>
        simp [sendFrames, sendLoop, h0, hrec] at h
      exact h.1.symm
  · cases fuel <;> simp [sendFrames, sendLoop, h0] at h

/-- For a packet length in `2..255`, fuel equal to the data length lets the
chunking loop run to completion from any position. -/
theorem sendLoop_ok_of_fuel (f : Nat) (data : List Nat)
    (hf : 2 ≤ f) (hf255 : f ≤ 255) :
    ∀ (fuel offset idx : Nat) (packet : List Nat),
      data.length - offset ≤ fuel →
      ∃ frames, sendLoop f data (fun _ => none) fuel offset idx packet = .ok frames := by
  intro fuel
  induction fuel with
  | zero =>
    intro offset idx packet hle
    refine ⟨[], ?_⟩
    simp [sendLoop, show ¬offset < data.length by omega]
  | succ fuel ih =>
    intro offset idx packet hle
    by_cases ho : offset < data.length
    · have hc : 1 ≤ chunkCount f (data.length - offset) :=
        chunkCount_pos f _ hf hf255 (by omega)
      obtain ⟨frames, hrec⟩ := ih (offset + chunkCount f (data.length - offset))
        (idx + 1) (writeChunk packet data offset (chunkCount f (data.length - offset)))
        (by omega)
      refine ⟨writeChunk packet data offset (chunkCount f (data.length - offset)) :: frames, ?_⟩
      simp [sendLoop, ho, hrec]
    · refine ⟨[], ?_⟩
      simp [sendLoop, ho]

/-- With packet length 1 the chunk size is 0, the offset never advances and
the loop never finishes, whatever the fuel. -/
theorem sendLoop_one_noFuel (data : List Nat) :
    ∀ (fuel offset idx : Nat) (packet : List Nat), offset < data.length →
      sendLoop 1 data (fun _ => none) fuel offset idx packet = .noFuel := by
  intro fuel
  induction fuel with
  | zero =>
    intro offset idx packet ho
    simp [sendLoop, ho]
  | succ fuel ih =>
    intro offset idx packet ho
    have hc : chunkCount 1 (data.length - offset) = 0 := chunkCount_one _
    simp only [sendLoop, if_pos ho, hc, Nat.add_zero]
    rw [ih offset (idx + 1) (writeChunk packet data offset 0) ho]

/-
Claim theorems.
-/

/-- C1: the round trip fails on the code.  At frame size 3 with message
[1, 2] (length 2 = frame_size - 1, inside the ranges 0 ≤ len ≤ 10000 and
2 ≤ f ≤ 255) send emits one full frame and no empty terminal frame, so
recv applied to the frame sequence written by send consumes it and then
blocks waiting for a further frame instead of returning the message; for
the empty message send emits no frame at all and recv blocks at once. -/
theorem c1_round_trip_fails_eval :
    sendFrames 3 [1, 2] 2 = .ok [[2, 1, 2]] ∧
    recvLoop 3 [] [[2, 1, 2]] = .blocked [1, 2] ∧
    sendFrames 3 [] 1 = .ok [] ∧
    recvLoop 3 [] [] = .blocked [] := by decide

/-- C2: the frame count fails on the code.  With f = 3 (chunk capacity
c = 2): the empty message produces 0 frames, not the claimed 1; the
message [1, 2, 3, 4] of length k = 4, a positive multiple of c, produces
2 frames, not the claimed ceil((k+1)/c) = 3 — no explicit empty final
chunk is emitted. -/
theorem c2_frame_count_fails_eval :
    sendFrames 3 [] 5 = .ok [] ∧
    sendFrames 3 [1, 2, 3, 4] 5 = .ok [[2, 1, 2], [2, 3, 4]] ∧
    ([[2, 1, 2], [2, 3, 4]] : List (List Nat)).length = 2 ∧
    (4 + 1 + 2 - 1) / 2 = 3 ∧ (2 : Nat) ≠ 3 := by decide

/-- C3: the terminal frame marker fails on the code.  With f = 4 and the
message [7, 8, 9] of length 3 = f - 1, the last (only) frame sent has
length byte 3 = f - 1, not strictly less. -/
theorem c3_terminal_marker_fails_eval :
    sendFrames 4 [7, 8, 9] 5 = .ok [[3, 7, 8, 9]] ∧
    ([3, 7, 8, 9] : List Nat).getD 0 0 = 4 - 1 := by decide

/-- C4: the malformed-frame check does not exist in the code.  With
frame size 2, a received frame [5, 9] declares length byte 5 > f - 1 = 1;
recv does not fail with any protocol error: it copies 5 bytes (reading
indices 1..5 of the 2-byte frame, i.e. indices 2..5 past the frame
boundary, undefined behaviour modelled as reading 0), does not even treat
the frame as terminal, and returns normally once a later short frame
arrives. -/
theorem c4_no_malformed_check_eval :
    recvLoop 2 [] [[5, 9], [0, 0]] = .ok [9, 0, 0, 0, 0] ∧
    recvReadIndices [5, 9] = [0, 1, 2, 3, 4, 5] ∧
    5 ∈ recvReadIndices [5, 9] ∧
    ¬ (5 < ([5, 9] : List Nat).length) := by decide

/-- C6: a failed bind can leave the endpoint bound.  With one candidate
whose socket() call returns descriptor 3 but whose setsockopt call fails
with errno 13, bind throws while `sockfd` is still set: the endpoint
reports `is_bound` afterwards, contradicting the no-partial-state claim. -/
theorem c6_bind_failure_leaves_bound_eval :
    TcpSocket.bind (TcpSocket.make 64)
        (.ok [{ socketRet := 3, setsockoptOk := false, setsockoptErrno := 13,
                bindOk := true }]) =
      (some { code := 13, msg := .couldNotSetSocketOptions },
       { sockfd := some 3, remote_sockfd := none, packet_len := 64 }) ∧
    TcpSocket.is_bound { sockfd := some 3, remote_sockfd := none, packet_len := 64 }
      = true := by decide

/-- C8 counterexample: the per-frame read of recv is a single raw read, not
a loop accumulating frame_size bytes.  The same 4-byte stream yields a
complete frame when delivered whole, but the error
"invalid received packet length" when the transport splits it into two
2-byte pieces — not a complete frame. -/
theorem c8_split_delivery_errors :
    recvLoop 4 [] [[0, 0, 0, 0]] = .ok [] ∧
    recvLoop 4 [] [[0, 0], [0, 0]] =
      .err { code := 1, msg := .invalidReceivedPacketLength } := by decide

/-- C8 (amended): whenever a raw read returns a number of bytes different
from frame_size — in particular when the transport delivers the stream in
smaller pieces — recv fails at once with code 1 and message
"invalid received packet length"; it never retries the read to complete
the frame. -/
theorem c8_partial_read_is_fatal (f : Nat) (acc seg : List Nat)
    (rest : List (List Nat)) (h : seg.length ≠ f) :
    recvLoop f acc (seg :: rest) =
      .err { code := 1, msg := .invalidReceivedPacketLength } := by
  simp [recvLoop, h]

/-- C8 witness: the amended theorem applied to a 2-byte delivery with
frame size 4. -/
theorem c8_partial_read_is_fatal_witness :
    recvLoop 4 [] [[0, 0]] =
      .err { code := 1, msg := .invalidReceivedPacketLength } :=
  c8_partial_read_is_fatal 4 [] [0, 0] [] (by decide)

/-- C9: send leaves the endpoint state unchanged on every path — guard
failure, write failure, fuel exhaustion or success — the descriptor fields
and the configured packet length after the call are those before it; the
message buffer is a value the function only reads. -/
theorem c9_send_preserves_state (s : TcpSocket) (data : List Nat)
    (wire : Nat → Option Int) (fuel : Nat) :
    (s.send data wire fuel).2.sockfd = s.sockfd ∧
    (s.send data wire fuel).2.remote_sockfd = s.remote_sockfd ∧
    (s.send data wire fuel).2.packet_len = s.packet_len := by
  cases hb : s.is_bound <;> cases hc : s.is_connected <;>
    simp [TcpSocket.send, hb, hc]

/-- C5 counterexample: on an Unbound endpoint no connection is established,
yet send fails with the NotBound error (code -2, message "socket unbound"),
not the NotConnected error (code -2, message "socket disconnected"):
bound-ness is checked first (nix_tcp.hpp:233-240). -/
theorem c5_send_unbound_counterexample :
    (TcpSocket.send (TcpSocket.make 64) [1] (fun _ => none) 1).1 =
      .err { code := -2, msg := .socketUnbound } ∧
    Msg.socketUnbound ≠ Msg.socketDisconnected := by decide

/-- C5 (amended): accept and connect on an Unbound endpoint fail with
NotBound; bind on a Bound endpoint fails with AlreadyBound; accept and
connect on a Connected (hence bound) endpoint fail with AlreadyConnected;
send and recv on a Bound but not Connected endpoint fail with NotConnected
("socket disconnected"), while on an Unbound endpoint they fail with
NotBound ("socket unbound"), because bound-ness is checked first. -/
theorem c5_state_guards (s : TcpSocket) (rb : Resolved Candidate)
    (rc : Resolved ConnCandidate) (lOk : Bool) (le : Int) (rets : List Int)
    (data : List Nat) (wire : Nat → Option Int) (fuel : Nat)
    (segs : List (List Nat)) :
    (s.is_bound = false →
      s.accept lOk le rets = some (some { code := -2, msg := .socketUnbound }, s) ∧
      s.connect rc = (some { code := -2, msg := .socketUnbound }, s) ∧
      s.send data wire fuel = (.err { code := -2, msg := .socketUnbound }, s) ∧
      s.recv segs = (.err { code := -2, msg := .socketUnbound }, s)) ∧
    (s.is_bound = true →
      s.bind rb = (some { code := -1, msg := .socketAlreadyBound }, s)) ∧
    (s.is_bound = true → s.is_connected = true →
      s.accept lOk le rets =
        some (some { code := -1, msg := .socketAlreadyConnected }, s) ∧
      s.connect rc = (some { code := -1, msg := .socketAlreadyConnected }, s)) ∧
    (s.is_bound = true → s.is_connected = false →
      s.send data wire fuel = (.err { code := -2, msg := .socketDisconnected }, s) ∧
      s.recv segs = (.err { code := -2, msg := .socketDisconnected }, s)) := by
  refine ⟨fun hb => ?_, fun hb => ?_, fun hb hc => ?_, fun hb hc => ?_⟩
  · exact ⟨by simp [TcpSocket.accept, hb], by simp [TcpSocket.connect, hb],
      by simp [TcpSocket.send, hb], by simp [TcpSocket.recv, hb]⟩
  · simp [TcpSocket.bind, hb]
  · exact ⟨by simp [TcpSocket.accept, hb, hc], by simp [TcpSocket.connect, hb, hc]⟩
  · exact ⟨by simp [TcpSocket.send, hb, hc], by simp [TcpSocket.recv, hb, hc]⟩

/-- C5 witness: the guard theorem applied to three concrete endpoint
states (unbound, bound only, connected). -/
theorem c5_state_guards_witness :
    (TcpSocket.connect { sockfd := none, remote_sockfd := none, packet_len := 64 }
        (.ok []) =
      (some { code := -2, msg := .socketUnbound },
       { sockfd := none, remote_sockfd := none, packet_len := 64 })) ∧
    (TcpSocket.bind { sockfd := some 3, remote_sockfd := none, packet_len := 64 }
        (.ok []) =
      (some { code := -1, msg := .socketAlreadyBound },
       { sockfd := some 3, remote_sockfd := none, packet_len := 64 })) ∧
    (TcpSocket.accept { sockfd := some 3, remote_sockfd := some 4, packet_len := 64 }
        true 0 [] =
      some (some { code := -1, msg := .socketAlreadyConnected },
       { sockfd := some 3, remote_sockfd := some 4, packet_len := 64 })) ∧
    (TcpSocket.recv { sockfd := some 3, remote_sockfd := none, packet_len := 64 } [] =
      (.err { code := -2, msg := .socketDisconnected },
       { sockfd := some 3, remote_sockfd := none, packet_len := 64 })) :=
  ⟨((c5_state_guards { sockfd := none, remote_sockfd := none, packet_len := 64 }
      (.ok []) (.ok []) true 0 [] [] (fun _ => none) 0 []).1 rfl).2.1,
   (c5_state_guards { sockfd := some 3, remote_sockfd := none, packet_len := 64 }
      (.ok []) (.ok []) true 0 [] [] (fun _ => none) 0 []).2.1 rfl,
   ((c5_state_guards { sockfd := some 3, remote_sockfd := some 4, packet_len := 64 }
      (.ok []) (.ok []) true 0 [] [] (fun _ => none) 0 []).2.2.1 rfl rfl).1,
   ((c5_state_guards { sockfd := some 3, remote_sockfd := none, packet_len := 64 }
      (.ok []) (.ok []) true 0 [] [] (fun _ => none) 0 []).2.2.2 rfl rfl).2⟩

/-- C7 counterexample: the packet buffer is reused without re-zeroing, so
padding of a later frame is not written as zero.  With f = 4 and message
[1, 2, 3, 4], the second frame is [1, 4, 2, 3]: its length byte is L = 1
and its padding byte at offset 2 (inside L+1..frame_size-1) is 2, a stale
byte of the first chunk, not 0. -/
theorem c7_padding_counterexample :
    sendFrames 4 [1, 2, 3, 4] 4 = .ok [[3, 1, 2, 3], [1, 4, 2, 3]] ∧
    ([1, 4, 2, 3] : List Nat).getD 0 0 = 1 ∧
    ([1, 4, 2, 3] : List Nat).getD 2 0 = 2 ∧ (2 : Nat) ≠ 0 := by decide

/-- C7 (amended): in the first frame produced by send the padding bytes at
offsets L+1..frame_size-1 are zero, because the packet buffer starts
zero-initialised; subsequent frames reuse the buffer without clearing it,
so their padding bytes can hold stale bytes of earlier chunks. -/
theorem c7_first_frame_padding_zero (f : Nat) (data : List Nat) (fuel : Nat)
    (fr : List Nat) (frames : List (List Nat)) (j : Nat) (hf : 1 ≤ f)
    (h : sendFrames f data fuel = .ok (fr :: frames))
    (hL : fr.getD 0 0 < j) (_hj : j < f) :
    fr.getD j 0 = 0 := by
  obtain ⟨h0, hfr⟩ := sendFrames_ok_cons f data fuel fr frames h
  have hp : 0 < (List.replicate f 0).length := by
    rw [List.length_replicate]; omega
  rw [hfr, getD_writeChunk_zero _ _ _ _ hp] at hL
  rw [hfr, getD_writeChunk_of_gt _ _ _ _ _ (by omega) hL]
  simp [List.getD_eq_getElem?_getD]

/-- C7 witness: at f = 4 and message [1] the single frame is [1, 1, 0, 0];
its padding byte at offset 2 is zero by the amended theorem. -/
theorem c7_first_frame_padding_zero_witness :
    ([1, 1, 0, 0] : List Nat).getD 2 0 = 0 :=
  c7_first_frame_padding_zero 4 [1] 1 [1, 1, 0, 0] [] 2 (by decide) (by decide)
    (by decide) (by decide)

/-- C10 counterexample: for frame size f = 0 (allowed by the unvalidated
uint8_t constructor) and the non-empty message [9], the computed chunk
size is not 0: the cast `(unsigned long)packet_len` happens before the
subtraction, so the left min argument wraps to 2^64 - 1 and the chunk size
is the remaining length (1) narrowed to uint8_t.  The offset advances and
the loop terminates, against the claim that send does not terminate for
every f ≤ 1. -/
theorem c10_f0_terminates_counterexample :
    chunkCount 0 1 = 1 ∧ sendFrames 0 [9] 1 = .ok [[]] := by decide

/-- C10 (amended): the constructor stores any frame size without
validation; for every f with 2 ≤ f ≤ 255 the chunking loop terminates
within data.length iterations (the offset strictly increases each
iteration); for f = 1 the computed chunk size is 0 for every remaining
length, the loop makes no progress and send never terminates on a
non-empty message; for f = 0 the size computation wraps around
(chunk size = remaining length mod 256), so the loop can terminate. -/
theorem c10_chunk_loop_termination (f r fuel : Nat) (data : List Nat) :
    TcpSocket.make f = { sockfd := none, remote_sockfd := none, packet_len := f } ∧
    (2 ≤ f → f ≤ 255 → data.length ≤ fuel →
      ∃ frames, sendFrames f data fuel = .ok frames) ∧
    chunkCount 1 r = 0 ∧
    (0 < data.length → sendFrames 1 data fuel = .noFuel) := by
  refine ⟨rfl, fun hf hf255 hfuel => ?_, chunkCount_one r, fun h0 => ?_⟩
  · exact sendLoop_ok_of_fuel f data hf hf255 fuel 0 0 _ (by omega)
  · exact sendLoop_one_noFuel data fuel 0 0 _ h0

/-- C10 witness: the amended theorem applied at f = 2 with message [5]
(one iteration suffices) and at f = 1 with the same message (fuel 3 is
still exhausted). -/
theorem c10_chunk_loop_termination_witness :
    (∃ frames, sendFrames 2 [5] 1 = .ok frames) ∧
    chunkCount 1 7 = 0 ∧
    sendFrames 1 [5] 3 = .noFuel :=
  ⟨(c10_chunk_loop_termination 2 7 1 [5]).2.1 (by decide) (by decide) (by decide),
   (c10_chunk_loop_termination 2 7 1 [5]).2.2.1,
   (c10_chunk_loop_termination 1 7 3 [5]).2.2.2 (by decide)⟩
